import Mathlib

/-!
Verification development for the amazon-backend ingredient pipeline.

Shallow embedding of the ingredient scan/merge pipeline of
`app/api/ingredients.py`, the expiration classifier of
`app/api/expiration.py`, and the recipe match scorer / cooking depletion of
`app/api/recipes.py`.

Modelling conventions:
- Python floats are modelled as rationals (`ℚ`); all quantity arithmetic in
  the embedded code paths is addition, subtraction, `min`/`max` and division,
  which the claims only inspect through order and exact values.
- `datetime` instants are modelled as integers (`ℤ`) counting days;
  `timedelta(days = d)` is integer addition, `min` on datetimes is `min` on `ℤ`.
- The document store (Firebase) is modelled by explicit state passing: the
  `ingredients` collection is a `List InvEntry`, and a store call that can
  raise is passed in as an `Except String` value.
- Python string operations used by the code (`.lower()`, substring `in`)
  are modelled on `String` via its character list; all concrete strings in
  the repository's keyword tables are ASCII, where `lowerStr` below agrees
  with Python `str.lower`.
-/

namespace AmazonBackend

/-- ASCII lowercase of one character, as `str.lower` acts on ASCII input
(every string the embedded code compares or searches is ASCII). -/
def lowerChar (c : Char) : Char :=
  if 65 ≤ c.toNat && c.toNat ≤ 90 then Char.ofNat (c.toNat + 32) else c

/-- Python `s.lower()` on ASCII strings. -/
def lowerStr (s : String) : String :=
  ⟨s.data.map lowerChar⟩

/-- Python substring containment `sub in s`: some suffix of `s` has `sub`
as a prefix (true for the empty `sub`). -/
def strContainsB (s sub : String) : Bool :=
  s.data.tails.any (fun t => sub.data.isPrefixOf t)

/-- Numeric value of a list of decimal digit characters, as produced by
`int(...)` on a `re.findall(r'\d+', s)` token. -/
def digitsVal (l : List Char) : Nat :=
  l.foldl (fun a c => a * 10 + (c.toNat - 48)) 0

/-- Locate the leftmost maximal run of decimal digits in a character list,
returning the run and the remaining characters after it.  This is the
leftmost match of `\d+` in Python `re`. -/
def firstDigitRun : List Char → Option (List Char × List Char)
  | [] => none
  | c :: cs =>
    if c.isDigit then
      some ((c :: cs).takeWhile Char.isDigit, (c :: cs).dropWhile Char.isDigit)
    else
      firstDigitRun cs

/-- First integer token of a string: `int(re.findall(r'\d+', s)[0])`,
or `none` when the string contains no digit. -/
def firstNatToken (s : String) : Option Nat :=
  (firstDigitRun s.data).map (fun p => digitsVal p.1)

/-- Embedding of `_parse_expiration_days` (app/api/ingredients.py).
Checks for the substrings `day`, `week`, `month` in the lowercased input,
in that order; extracts the first integer and scales it by the unit factor,
falling back to the unit default (7, 7, 30) when no integer is present;
any other input yields 7. -/
def parseExpirationDays (expirationStr : String) : Nat :=
  let expirationLower := lowerStr expirationStr
  if strContainsB expirationLower "day" then
    match firstNatToken expirationStr with
    | some n => n
    | none => 7
  else if strContainsB expirationLower "week" then
    match firstNatToken expirationStr with
    | some n => n * 7
    | none => 7
  else if strContainsB expirationLower "month" then
    match firstNatToken expirationStr with
    | some n => n * 30
    | none => 30
  else
    7

/-- Embedding of `_parse_quantity_value` (app/api/ingredients.py).
The leftmost match of `\d+\.?\d*` is an integer part, an optional dot and an
optional fractional part; its `float(...)` value is the returned amount.
When the string has no digit, the amount defaults to `1.0`. -/
def parseQuantityValue (quantityStr : String) : ℚ :=
  match firstDigitRun quantityStr.data with
  | none => 1
  | some (run, rest) =>
    match rest with
    | [] => (digitsVal run : ℚ)
    | c :: rest2 =>
      if c = '.' then
        let frac := rest2.takeWhile Char.isDigit
        (digitsVal run : ℚ) + (digitsVal frac : ℚ) / ((10 : ℚ) ^ frac.length)
      else
        (digitsVal run : ℚ)

/-- Embedding of `_parse_unit_value` (app/api/ingredients.py): an ordered
chain of case-insensitive keyword containment tests with default `"pieces"`. -/
def parseUnitValue (quantityStr : String) : String :=
  let quantityLower := lowerStr quantityStr
  if strContainsB quantityLower "piece" || strContainsB quantityLower "item" then
    "pieces"
  else if strContainsB quantityLower "bottle" then
    "bottles"
  else if strContainsB quantityLower "container" || strContainsB quantityLower "box" then
    "containers"
  else if strContainsB quantityLower "cup" then
    "cups"
  else if strContainsB quantityLower "lb" || strContainsB quantityLower "pound" then
    "lbs"
  else if strContainsB quantityLower "kg" then
    "kg"
  else if strContainsB quantityLower "carton" then
    "cartons"
  else if strContainsB quantityLower "loaf" || strContainsB quantityLower "loaves" then
    "loaves"
  else if strContainsB quantityLower "block" then
    "blocks"
  else
    "pieces"

/-- The ingredient categories of `IngredientCategory`
(app/models/ingredient.py). -/
inductive IngredientCategory where
  | produce
  | dairy
  | protein
  | grains
  | spices
  | other
deriving DecidableEq, Repr

/-- Produce keyword list of `_guess_ingredient_category`
(app/api/ingredients.py): fruits and vegetables merged. -/
def produceItems : List String :=
  ["apple", "apples", "banana", "bananas", "orange", "oranges", "berry", "berries",
   "strawberry", "strawberries", "blueberry", "blueberries", "raspberry", "raspberries",
   "grape", "grapes", "lemon", "lemons", "lime", "limes", "pear", "pears", "peach", "peaches",
   "plum", "plums", "cherry", "cherries", "mango", "mangoes", "pineapple", "avocado", "avocados",
   "kiwi", "melon", "watermelon", "cantaloupe", "grapefruit", "coconut", "papaya", "fig", "figs",
   "tomato", "tomatoes", "onion", "onions", "carrot", "carrots", "lettuce", "spinach",
   "potato", "potatoes", "bell pepper", "bell peppers", "green bell pepper", "green bell peppers",
   "red bell pepper", "red bell peppers", "yellow bell pepper", "yellow bell peppers",
   "cucumber", "cucumbers", "broccoli", "cauliflower", "cabbage", "celery", "radish", "radishes",
   "beet", "beets", "corn", "peas", "green beans", "asparagus", "zucchini", "squash", "eggplant",
   "mushroom", "mushrooms", "kale", "arugula", "chard", "leek", "leeks", "scallion", "scallions",
   "green onion", "shallot", "shallots", "pepper", "peppers"]

/-- Protein keyword list of `_guess_ingredient_category`. -/
def proteinItems : List String :=
  ["chicken", "beef", "pork", "fish", "turkey", "lamb", "salmon", "tuna", "cod", "shrimp",
   "crab", "lobster", "eggs", "egg", "tofu", "tempeh", "seitan", "beans", "lentils", "chickpeas",
   "black beans", "kidney beans", "pinto beans", "navy beans", "lima beans", "edamame",
   "nuts", "almonds", "walnuts", "pecans", "cashews", "peanuts", "pistachios", "hazelnuts",
   "bacon", "ham", "sausage", "ground beef", "ground turkey", "ground chicken", "steak",
   "pork chops", "chicken breast", "chicken thighs", "duck", "venison", "bison"]

/-- Dairy keyword list of `_guess_ingredient_category`. -/
def dairyItems : List String :=
  ["milk", "cheese", "yogurt", "butter", "cream", "sour cream", "cottage cheese", "ricotta",
   "mozzarella", "cheddar", "swiss", "parmesan", "feta", "goat cheese", "cream cheese",
   "half and half", "heavy cream", "whipped cream", "ice cream", "frozen yogurt", "kefir",
   "buttermilk", "condensed milk", "evaporated milk", "powdered milk"]

/-- Grains keyword list of `_guess_ingredient_category`. -/
def grainItems : List String :=
  ["rice", "bread", "pasta", "flour", "oats", "quinoa", "barley", "wheat", "rye", "millet",
   "buckwheat", "amaranth", "bulgur", "couscous", "farro", "spelt", "teff", "cornmeal",
   "polenta", "grits", "cereal", "crackers", "bagel", "bagels", "muffin", "muffins",
   "tortilla", "tortillas", "pita", "naan", "rolls", "buns", "croissant", "croissants",
   "pancake mix", "baking mix", "breadcrumbs", "oatmeal", "granola", "muesli"]

/-- Spices keyword list of `_guess_ingredient_category`.  Note that the bare
term "pepper" is not in this list (only compound terms such as
"black pepper" are); "pepper" is a produce keyword instead. -/
def spiceItems : List String :=
  ["salt", "black pepper", "white pepper", "garlic", "ginger", "basil", "oregano", "thyme",
   "rosemary", "sage",
   "parsley", "cilantro", "dill", "mint", "chives", "tarragon", "bay leaves", "cumin",
   "coriander", "paprika", "chili powder", "cayenne", "turmeric", "curry powder", "garam masala",
   "cinnamon", "nutmeg", "cloves", "allspice", "cardamom", "vanilla", "extract", "garlic powder",
   "onion powder", "dried herbs", "italian seasoning", "herbs de provence",
   "everything bagel seasoning",
   "red pepper flakes", "black peppercorns", "mustard seed", "fennel seeds", "caraway seeds",
   "anise", "star anise", "saffron"]

/-- True when some keyword of the list occurs as a substring of the
lowercased name: `any(item in name_lower for item in items)`. -/
def anyKeywordIn (nameLower : String) (items : List String) : Bool :=
  items.any (fun item => strContainsB nameLower item)

/-- Embedding of `_guess_ingredient_category` (app/api/ingredients.py):
spices checked first, then produce, protein, dairy, grains, default other. -/
def guessIngredientCategory (ingredientName : String) : IngredientCategory :=
  let nameLower := lowerStr ingredientName
  if anyKeywordIn nameLower spiceItems then IngredientCategory.spices
  else if anyKeywordIn nameLower produceItems then IngredientCategory.produce
  else if anyKeywordIn nameLower proteinItems then IngredientCategory.protein
  else if anyKeywordIn nameLower dairyItems then IngredientCategory.dairy
  else if anyKeywordIn nameLower grainItems then IngredientCategory.grains
  else IngredientCategory.other

/-- The unit keywords tested by `_parse_unit_value`, in source order. -/
def unitKeywords : List String :=
  ["piece", "item", "bottle", "container", "box", "cup", "lb", "pound",
   "kg", "carton", "loaf", "loaves", "block"]

/-- True when some unit keyword of `_parse_unit_value` occurs in the
lowercased input. -/
def unitKeywordPresent (quantityStr : String) : Bool :=
  unitKeywords.any (fun k => strContainsB (lowerStr quantityStr) k)

/-- Scan-provenance annotation of an inventory entry.  The source writes a
human-readable f-string audit trail into `notes`; its structured content
(confidence, previous quantity and unit) is modelled here, the surface
formatting being irrelevant to every claim. -/
inductive ScanNote where
  | scannedFromImage (confidence : ℚ)
  | updatedFromScan (confidence : ℚ) (previousQuantity : ℚ) (previousUnit : String)
deriving DecidableEq, Repr

/-- One document of the `ingredients` collection, per the `Ingredient`
model (app/models/ingredient.py). -/
structure InvEntry where
  id : String
  name : String
  category : IngredientCategory
  quantity : ℚ
  unit : String
  expirationDate : Option ℤ
  purchaseDate : Option ℤ
  location : Option String
  notes : Option ScanNote
  createdAt : ℤ
  updatedAt : ℤ
deriving DecidableEq, Repr

/-- One tuple returned by the vision recognizer, after the `.get` defaults
the scan endpoint applies (`quantity` defaults to "1 unit",
`estimatedExpiration` to "7 days", `confidence` to 0.8). -/
structure RecognizedIngredient where
  name : String
  quantity : String
  estimatedExpiration : String
  confidence : ℚ
deriving DecidableEq, Repr

/-- The `ScannedIngredient` response record of the scan endpoint:
`{name, quantity: {amount, unit}, estimatedExpiration, category}`. -/
structure ScannedIngredientRecord where
  name : String
  amount : ℚ
  unit : String
  estimatedExpiration : Option ℤ
  category : IngredientCategory
deriving DecidableEq, Repr

/-- Embedding of `_find_existing_ingredient_by_name`
(app/api/ingredients.py).  The two store calls are passed in as `Except`
values; the `try/except` around the body turns any store error into `none`.
Step 1 takes the first result of the exact-name query; step 2 falls back to
a case-insensitive linear scan of the whole collection. -/
def findExistingIngredientByName (name : String)
    (queryRes : Except String (List InvEntry))
    (collectionRes : Except String (List InvEntry)) : Option InvEntry :=
  match queryRes with
  | Except.error _ => none
  | Except.ok existingIngredients =>
    match existingIngredients with
    | e :: _ => some e
    | [] =>
      match collectionRes with
      | Except.error _ => none
      | Except.ok allIngredients =>
        allIngredients.find? (fun i => lowerStr i.name == lowerStr name)

/-- The lookup as executed against a healthy store whose `ingredients`
collection is `inv`: `query_collection("ingredients", "name", "==", name)`
is the exact-equality filter, `get_collection("ingredients")` is `inv`. -/
def scanLookup (inv : List InvEntry) (name : String) : Option InvEntry :=
  findExistingIngredientByName name
    (Except.ok (inv.filter (fun e => e.name == name)))
    (Except.ok inv)

/-- Merge branch of `scan_ingredients` (app/api/ingredients.py, lines
218-264): sum quantities when the units match case-insensitively, else
adopt the new amount; write the parsed unit; earliest expiration wins when
the existing entry has one; refresh `updated_at` and the audit note. -/
def mergeIntoExisting (now : ℤ) (existing : InvEntry) (quantityAmount : ℚ)
    (quantityUnit : String) (estimatedExpiration : ℤ) (confidence : ℚ) : InvEntry :=
  let newQuantity :=
    if lowerStr existing.unit = lowerStr quantityUnit then
      existing.quantity + quantityAmount
    else
      quantityAmount
  let finalExpiration :=
    match existing.expirationDate with
    | some existingExpDate => min estimatedExpiration existingExpDate
    | none => estimatedExpiration
  { existing with
      quantity := newQuantity
      unit := quantityUnit
      expirationDate := some finalExpiration
      updatedAt := now
      notes := some (ScanNote.updatedFromScan confidence existing.quantity existing.unit) }

/-- Create branch of `scan_ingredients`: a brand-new entry with the parsed
fields, location defaulted to "fridge" and a scan-provenance note. -/
def createFromScan (now : ℤ) (newId : String) (item : RecognizedIngredient)
    (quantityAmount : ℚ) (quantityUnit : String) (estimatedExpiration : ℤ)
    (category : IngredientCategory) : InvEntry :=
  { id := newId
    name := item.name
    category := category
    quantity := quantityAmount
    unit := quantityUnit
    expirationDate := some estimatedExpiration
    purchaseDate := some now
    location := some "fridge"
    notes := some (ScanNote.scannedFromImage item.confidence)
    createdAt := now
    updatedAt := now }

/-- Fate of one item of a scan batch with respect to effects the embedding
does not compute: `raised` models an exception thrown inside the per-item
`try` (e.g. a malformed stored expiration string), `persistFailed` models
`create_document`/`update_document` returning `False`.  Both leave the
store unchanged and emit nothing; the loop logs and continues. -/
inductive ItemFate where
  | ok
  | raised
  | persistFailed
deriving DecidableEq, Repr

/-- Body of the per-item loop of `scan_ingredients`, with the lookup result
injected (it is produced by `_find_existing_ingredient_by_name`, whose store
calls may fail).  Returns the new collection state and the response record
appended for this item, if any. -/
def reconcileScanItem (now : ℤ) (newId : String) (inv : List InvEntry)
    (item : RecognizedIngredient) (lookupRes : Option InvEntry) (fate : ItemFate) :
    List InvEntry × Option ScannedIngredientRecord :=
  match fate with
  | ItemFate.raised => (inv, none)
  | ItemFate.persistFailed => (inv, none)
  | ItemFate.ok =>
    let expirationDays := parseExpirationDays item.estimatedExpiration
    let estimatedExpiration := now + (expirationDays : ℤ)
    let quantityAmount := parseQuantityValue item.quantity
    let quantityUnit := parseUnitValue item.quantity
    let category := guessIngredientCategory item.name
    match lookupRes with
    | some existing =>
      let updated := mergeIntoExisting now existing quantityAmount quantityUnit
        estimatedExpiration item.confidence
      (inv.map (fun e => if e.id == existing.id then updated else e),
       some { name := item.name
              amount := updated.quantity
              unit := updated.unit
              estimatedExpiration := updated.expirationDate
              category := category })
    | none =>
      let created := createFromScan now newId item quantityAmount quantityUnit
        estimatedExpiration category
      (inv ++ [created],
       some { name := item.name
              amount := quantityAmount
              unit := quantityUnit
              estimatedExpiration := some estimatedExpiration
              category := category })

/-- One scan-loop iteration against the healthy store: the lookup is
computed from the current collection state. -/
def processScanItem (now : ℤ) (newId : String) (inv : List InvEntry)
    (item : RecognizedIngredient) (fate : ItemFate) :
    List InvEntry × Option ScannedIngredientRecord :=
  reconcileScanItem now newId inv item (scanLookup inv item.name) fate

/-- The sequential per-item loop of `scan_ingredients`: each recognized
ingredient (paired with its fresh uuid and its fate) is processed against
the state left by its predecessors; items whose processing fails are
skipped and contribute nothing to the response list. -/
def scanIngredientsBatch (now : ℤ) :
    List InvEntry → List (RecognizedIngredient × String × ItemFate) →
    List InvEntry × List ScannedIngredientRecord
  | inv, [] => (inv, [])
  | inv, (item, newId, fate) :: rest =>
    let step := processScanItem now newId inv item fate
    let tail := scanIngredientsBatch now step.1 rest
    (tail.1, (step.2.elim [] (fun s => [s])) ++ tail.2)

/-- `parse_quantity` (app/api/recipes.py) — textually the same parser as
`_parse_quantity_value`. -/
def parseQuantityRecipes (amountStr : String) : ℚ :=
  parseQuantityValue amountStr

/-- Inventory depletion for one recipe ingredient inside
`mark_recipe_cooked` (app/api/recipes.py, lines 377-418): exact-name query
with the lowercased recipe-ingredient name, case-insensitive fallback scan,
then `new_quantity = max(0, current_quantity - required_amount)` written to
the first match. -/
def cookDepleteIngredient (now : ℤ) (inv : List InvEntry)
    (recipeIngredientName : String) (amountStr : String) : List InvEntry :=
  let ingredientName := lowerStr recipeIngredientName
  let requiredAmount := parseQuantityRecipes amountStr
  let inventoryIngredients := inv.filter (fun e => e.name == ingredientName)
  let inventoryIngredients :=
    if inventoryIngredients.isEmpty then
      inv.filter (fun e => lowerStr e.name == ingredientName)
    else inventoryIngredients
  match inventoryIngredients with
  | [] => inv
  | chosen :: _ =>
    let newQuantity := max 0 (chosen.quantity - requiredAmount)
    inv.map (fun e =>
      if e.id == chosen.id then { e with quantity := newQuantity, updatedAt := now } else e)

/-- The inventory-writing operations the reconciliation/cooking paths
perform, as a step relation on collection states. -/
inductive InvWrite : List InvEntry → List InvEntry → Prop
  | scan (now : ℤ) (newId : String) (item : RecognizedIngredient) (fate : ItemFate)
      (inv : List InvEntry) :
      InvWrite inv (processScanItem now newId inv item fate).1
  | cook (now : ℤ) (recipeIngredientName amountStr : String) (inv : List InvEntry) :
      InvWrite inv (cookDepleteIngredient now inv recipeIngredientName amountStr)

/-- Every quantity in the collection is non-negative. -/
def NonNegInventory (inv : List InvEntry) : Prop :=
  ∀ e ∈ inv, 0 ≤ e.quantity

/-- The expiration statuses of `ExpirationStatus`
(app/models/expiration.py). -/
inductive ExpirationStatus where
  | fresh
  | expiringSoon
  | expired
  | unknown
deriving DecidableEq, Repr

/-- Status determination of `get_expiration_summary`
(app/api/expiration.py, lines 35-51): no date means unknown; otherwise
`days_until_expiration = exp_date - today` is bucketed by
`< 0` / `≤ warning_threshold` / otherwise. -/
def expirationStatusOf (expirationDate : Option ℤ) (today : ℤ)
    (threshold : ℤ) : ExpirationStatus :=
  match expirationDate with
  | none => ExpirationStatus.unknown
  | some expDate =>
    let daysUntilExpiration := expDate - today
    if daysUntilExpiration < 0 then ExpirationStatus.expired
    else if daysUntilExpiration ≤ threshold then ExpirationStatus.expiringSoon
    else ExpirationStatus.fresh

/-- The hard-coded `warning_threshold = 3` of `get_expiration_summary`. -/
def warningThreshold : ℤ := 3

/-- Alert creation condition of `get_expiration_summary` (line 54):
`status in [ExpirationStatus.EXPIRED, ExpirationStatus.EXPIRING_SOON]`. -/
def alertGenerated (status : ExpirationStatus) : Bool :=
  match status with
  | ExpirationStatus.expired => true
  | ExpirationStatus.expiringSoon => true
  | _ => false

/-- Match test of `calculate_match_score` (app/api/recipes.py, line 458):
the lowercased recipe-ingredient name is a substring of some lowercased
available name, or conversely. -/
def ingredientMatched (ingNameLower : String) (availableLower : List String) : Bool :=
  availableLower.any (fun avail =>
    strContainsB avail ingNameLower || strContainsB ingNameLower avail)

/-- Embedding of `calculate_match_score` (app/api/recipes.py):
`matches / len(recipe_ingredients)`, and `0.0` for an empty recipe
ingredient list.  Recipe ingredients are passed by name. -/
def calculateMatchScore (recipeIngredients : List String)
    (availableIngredients : List String) : ℚ :=
  if recipeIngredients.isEmpty then 0
  else
    let availableLower := availableIngredients.map lowerStr
    let matchedCount :=
      (recipeIngredients.filter
        (fun r => ingredientMatched (lowerStr r) availableLower)).length
    (matchedCount : ℚ) / (recipeIngredients.length : ℚ)

/-! ### Shared helper lemmas -/

/-- The quantity parser never yields a negative amount: the default is 1 and
a parsed token is a non-negative integer plus a non-negative fraction. -/
theorem parseQuantityValue_nonneg (s : String) : 0 ≤ parseQuantityValue s := by
  unfold parseQuantityValue
  cases h : firstDigitRun s.data with
  | none => norm_num
  | some p =>
    obtain ⟨run, rest⟩ := p
    cases rest with
    | nil => positivity
    | cons c rest2 =>
      by_cases hc : c = '.' <;> simp only [hc, if_true, if_false] <;> positivity

/-- A successful lookup against a healthy store returns an entry of the
collection. -/
theorem scanLookup_mem {inv : List InvEntry} {name : String} {e : InvEntry}
    (h : scanLookup inv name = some e) : e ∈ inv := by
  unfold scanLookup findExistingIngredientByName at h
  cases hf : inv.filter (fun x => x.name == name) with
  | cons hd tl =>
    rw [hf] at h
    simp only [Option.some.injEq] at h
    subst h
    have : hd ∈ inv.filter (fun x => x.name == name) := by
      rw [hf]; exact List.mem_cons_self _ _
    exact List.mem_of_mem_filter this
  | nil =>
    rw [hf] at h
    exact List.mem_of_find?_eq_some h

/-- A sample inventory entry used by concrete witnesses. -/
def samplePieces : InvEntry :=
  { id := "sample-id"
    name := "avocado"
    category := IngredientCategory.produce
    quantity := 2
    unit := "pieces"
    expirationDate := some 5
    purchaseDate := none
    location := none
    notes := none
    createdAt := 0
    updatedAt := 0 }

/-! ### Claim theorems -/

/-- C1: on a scan merge, when the existing unit equals the newly parsed
unit case-insensitively the merged quantity is `existing + parsed` and the
unit is kept (the stored unit is the parsed one, which is case-insensitively
the existing unit); when the units differ, no conversion happens and the
merged quantity and unit are exactly the parsed ones. -/
theorem scan_merge_quantity_unit_rule (now : ℤ) (existing : InvEntry)
    (quantityAmount : ℚ) (quantityUnit : String) (estExp : ℤ) (conf : ℚ) :
    (lowerStr existing.unit = lowerStr quantityUnit →
      (mergeIntoExisting now existing quantityAmount quantityUnit estExp conf).quantity
        = existing.quantity + quantityAmount ∧
      (mergeIntoExisting now existing quantityAmount quantityUnit estExp conf).unit
        = quantityUnit ∧
      lowerStr (mergeIntoExisting now existing quantityAmount quantityUnit estExp conf).unit
        = lowerStr existing.unit) ∧
    (lowerStr existing.unit ≠ lowerStr quantityUnit →
      (mergeIntoExisting now existing quantityAmount quantityUnit estExp conf).quantity
        = quantityAmount ∧
      (mergeIntoExisting now existing quantityAmount quantityUnit estExp conf).unit
        = quantityUnit) := by
  constructor <;> intro h <;>
    simp [mergeIntoExisting, h]

/-- C1 witness: merging `(qty=2, unit="pieces")` with incoming
`(qty=3, unit="pieces")` yields quantity 5, and with incoming
`(qty=1, unit="kg")` yields quantity 1 and unit "kg". -/
theorem scan_merge_quantity_unit_rule_witness :
    (mergeIntoExisting 0 samplePieces 3 "pieces" 0 (4/5)).quantity = 5 ∧
    (mergeIntoExisting 0 samplePieces 1 "kg" 0 (4/5)).quantity = 1 ∧
    (mergeIntoExisting 0 samplePieces 1 "kg" 0 (4/5)).unit = "kg" := by
  refine ⟨?_, ?_, ?_⟩
  · have h := ((scan_merge_quantity_unit_rule 0 samplePieces 3 "pieces" 0 (4/5)).1
      (by decide)).1
    rw [h]; norm_num [samplePieces]
  · exact ((scan_merge_quantity_unit_rule 0 samplePieces 1 "kg" 0 (4/5)).2
      (by decide)).1
  · exact ((scan_merge_quantity_unit_rule 0 samplePieces 1 "kg" 0 (4/5)).2
      (by decide)).2

/-- C2: on a scan merge, when the existing entry has an expiration date the
merged expiration is the minimum of the parsed and existing dates; when it
has none, the parsed expiration is adopted. -/
theorem scan_merge_expiration_earliest_wins (now : ℤ) (existing : InvEntry)
    (quantityAmount : ℚ) (quantityUnit : String) (estExp : ℤ) (conf : ℚ) :
    (∀ d : ℤ, existing.expirationDate = some d →
      (mergeIntoExisting now existing quantityAmount quantityUnit estExp conf).expirationDate
        = some (min estExp d)) ∧
    (existing.expirationDate = none →
      (mergeIntoExisting now existing quantityAmount quantityUnit estExp conf).expirationDate
        = some estExp) := by
  constructor
  · intro d hd
    simp [mergeIntoExisting, hd]
  · intro hn
    simp [mergeIntoExisting, hn]

/-- C2 witness: existing expiration 5 with incoming 2 merges to 2;
an existing entry without expiration adopts the incoming 3. -/
theorem scan_merge_expiration_earliest_wins_witness :
    (mergeIntoExisting 0 samplePieces 3 "pieces" 2 (4/5)).expirationDate = some 2 ∧
    (mergeIntoExisting 0 { samplePieces with expirationDate := none }
      3 "pieces" 3 (4/5)).expirationDate = some 3 := by
  constructor
  · have h := (scan_merge_expiration_earliest_wins 0 samplePieces 3 "pieces" 2 (4/5)).1
      5 (by decide)
    rw [h]; norm_num
  · exact (scan_merge_expiration_earliest_wins 0
      { samplePieces with expirationDate := none } 3 "pieces" 3 (4/5)).2 (by decide)

/-- C3: `_parse_expiration_days` has no never/indefinite/permanent branch;
on the input "never" it falls through to the 7-day default instead of
returning a NonPerishable sentinel, so the scan endpoint attaches a concrete
date 7 days out.  The remainder of the claim does hold: the parser is total
with a non-negative integer result, "2 weeks" yields 14 and "weeks" yields
the unit default 7. -/
theorem parse_expiration_days_never_returns_seven :
    parseExpirationDays "never" = 7 ∧
    parseExpirationDays "2 weeks" = 14 ∧
    parseExpirationDays "weeks" = 7 := by
  refine ⟨by decide, by decide, by decide⟩

/-- C4 counterexample: the classifier of app/api/ingredients.py sends the
bare name "pepper" to Produce, not to Spices — "pepper" is a produce
keyword there and the spice list only holds compound terms. -/
theorem guess_category_bare_pepper_is_produce :
    guessIngredientCategory "pepper" = IngredientCategory.produce ∧
    guessIngredientCategory "pepper" ≠ IngredientCategory.spices := by
  refine ⟨by decide, by decide⟩

/-- C4 (amended): the classifier tests Spices first, then Produce, Protein,
Dairy, Grains, returning Other when nothing matches;
`classify("Bell Pepper") = Produce` and `classify("Black Pepper") = Spices`,
while the bare name "pepper" resolves to Produce. -/
theorem guess_category_precedence (name : String) :
    (anyKeywordIn (lowerStr name) spiceItems = true →
      guessIngredientCategory name = IngredientCategory.spices) ∧
    (anyKeywordIn (lowerStr name) spiceItems = false →
      anyKeywordIn (lowerStr name) produceItems = true →
      guessIngredientCategory name = IngredientCategory.produce) ∧
    (anyKeywordIn (lowerStr name) spiceItems = false →
      anyKeywordIn (lowerStr name) produceItems = false →
      anyKeywordIn (lowerStr name) proteinItems = true →
      guessIngredientCategory name = IngredientCategory.protein) ∧
    (anyKeywordIn (lowerStr name) spiceItems = false →
      anyKeywordIn (lowerStr name) produceItems = false →
      anyKeywordIn (lowerStr name) proteinItems = false →
      anyKeywordIn (lowerStr name) dairyItems = true →
      guessIngredientCategory name = IngredientCategory.dairy) ∧
    (anyKeywordIn (lowerStr name) spiceItems = false →
      anyKeywordIn (lowerStr name) produceItems = false →
      anyKeywordIn (lowerStr name) proteinItems = false →
      anyKeywordIn (lowerStr name) dairyItems = false →
      anyKeywordIn (lowerStr name) grainItems = true →
      guessIngredientCategory name = IngredientCategory.grains) ∧
    (anyKeywordIn (lowerStr name) spiceItems = false →
      anyKeywordIn (lowerStr name) produceItems = false →
      anyKeywordIn (lowerStr name) proteinItems = false →
      anyKeywordIn (lowerStr name) dairyItems = false →
      anyKeywordIn (lowerStr name) grainItems = false →
      guessIngredientCategory name = IngredientCategory.other) ∧
    guessIngredientCategory "Bell Pepper" = IngredientCategory.produce ∧
    guessIngredientCategory "Black Pepper" = IngredientCategory.spices ∧
    guessIngredientCategory "pepper" = IngredientCategory.produce := by
  refine ⟨?_, ?_, ?_, ?_, ?_, ?_, by decide, by decide, by decide⟩ <;>
    intros <;> simp_all [guessIngredientCategory]

/-- C4 witness: the precedence branches applied at concrete names —
"Black Pepper" matches the spice table and classifies as Spices,
"Bell Pepper" misses it, matches the produce table and classifies as
Produce. -/
theorem guess_category_precedence_witness :
    guessIngredientCategory "Black Pepper" = IngredientCategory.spices ∧
    guessIngredientCategory "Bell Pepper" = IngredientCategory.produce := by
  constructor
  · exact (guess_category_precedence "Black Pepper").1 (by decide)
  · exact (guess_category_precedence "Bell Pepper").2.1 (by decide) (by decide)

/-- C10: a store failure inside `_find_existing_ingredient_by_name` — in
the exact-match query or in the case-insensitive full scan — is swallowed
and returned as `none`, and the reconciliation of a scanned item whose
lookup is `none` creates a brand-new inventory entry and emits the create
record, exactly as for a genuinely absent name. -/
theorem store_failure_creates_new_entry (name err : String)
    (collectionRes : Except String (List InvEntry)) :
    findExistingIngredientByName name (Except.error err) collectionRes = none ∧
    findExistingIngredientByName name (Except.ok []) (Except.error err) = none ∧
    (∀ (now : ℤ) (newId : String) (inv : List InvEntry) (item : RecognizedIngredient),
      (reconcileScanItem now newId inv item none ItemFate.ok).1
        = inv ++ [createFromScan now newId item (parseQuantityValue item.quantity)
            (parseUnitValue item.quantity)
            (now + (parseExpirationDays item.estimatedExpiration : ℤ))
            (guessIngredientCategory item.name)] ∧
      (reconcileScanItem now newId inv item none ItemFate.ok).2
        = some { name := item.name
                 amount := parseQuantityValue item.quantity
                 unit := parseUnitValue item.quantity
                 estimatedExpiration :=
                   some (now + (parseExpirationDays item.estimatedExpiration : ℤ))
                 category := guessIngredientCategory item.name }) := by
  exact ⟨rfl, rfl, fun now newId inv item => ⟨rfl, rfl⟩⟩

/-- C7: the quantity parser is total — every input yields a non-negative
amount and a non-empty unit; a string with no digit yields the default
amount 1.0, and a string matching no unit keyword yields the default unit
"pieces". -/
theorem parse_quantity_unit_totality_defaults (s : String) :
    0 ≤ parseQuantityValue s ∧
    parseUnitValue s ≠ "" ∧
    (firstDigitRun s.data = none → parseQuantityValue s = 1) ∧
    (unitKeywordPresent s = false → parseUnitValue s = "pieces") := by
  refine ⟨parseQuantityValue_nonneg s, ?_, ?_, ?_⟩
  · unfold parseUnitValue
    dsimp only
    split_ifs <;> decide
  · intro h
    simp [parseQuantityValue, h]
  · intro h
    simp only [unitKeywordPresent, unitKeywords, List.any_cons, List.any_nil,
      Bool.or_eq_false_iff] at h
    obtain ⟨h1, h2, h3, h4, h5, h6, h7, h8, h9, h10, h11, h12, h13, -⟩ := h
    simp [parseUnitValue, h1, h2, h3, h4, h5, h6, h7, h8, h9, h10, h11, h12, h13]

/-- C7 witness: the empty string parses to amount 1.0 with unit "pieces". -/
theorem parse_quantity_unit_totality_defaults_witness :
    0 ≤ parseQuantityValue "" ∧
    parseUnitValue "" ≠ "" ∧
    parseQuantityValue "" = 1 ∧
    parseUnitValue "" = "pieces" := by
  have h := parse_quantity_unit_totality_defaults ""
  exact ⟨h.1, h.2.1, h.2.2.1 (by decide), h.2.2.2 (by decide)⟩

/-- C8: with the hard-coded threshold of 3 days, an item is Unknown exactly
when it has no expiration date; with a date, its status is Expired exactly
when days-until is negative, ExpiringSoon exactly when days-until lies in
[0, 3], and Fresh exactly when days-until exceeds 3; an alert is generated
exactly for the Expired and ExpiringSoon statuses. -/
theorem expiration_status_classification (expirationDate : Option ℤ) (today : ℤ) :
    (expirationDate = none ↔
      expirationStatusOf expirationDate today warningThreshold
        = ExpirationStatus.unknown) ∧
    (∀ d : ℤ, expirationDate = some d →
      ((d - today < 0 ↔
        expirationStatusOf expirationDate today warningThreshold
          = ExpirationStatus.expired) ∧
       (0 ≤ d - today ∧ d - today ≤ 3 ↔
        expirationStatusOf expirationDate today warningThreshold
          = ExpirationStatus.expiringSoon) ∧
       (3 < d - today ↔
        expirationStatusOf expirationDate today warningThreshold
          = ExpirationStatus.fresh))) ∧
    (alertGenerated (expirationStatusOf expirationDate today warningThreshold) = true ↔
      expirationStatusOf expirationDate today warningThreshold
          = ExpirationStatus.expired ∨
      expirationStatusOf expirationDate today warningThreshold
          = ExpirationStatus.expiringSoon) := by
  refine ⟨?_, ?_, ?_⟩
  · cases expirationDate with
    | none => simp [expirationStatusOf]
    | some d =>
      simp only [expirationStatusOf, warningThreshold]
      constructor
      · intro h; cases h
      · split_ifs <;> intro h <;> cases h
  · intro d hd
    subst hd
    simp only [expirationStatusOf, warningThreshold]
    refine ⟨?_, ?_, ?_⟩ <;> split_ifs with h1 h2 <;>
      constructor <;> intro h <;> first | rfl | omega | (exfalso; cases h)
  · cases hs : expirationStatusOf expirationDate today warningThreshold <;>
      simp [alertGenerated]

/-- C8 witness: with threshold 3 and today 0, days-until −1 is Expired, 0
and 3 are ExpiringSoon, 4 is Fresh, and a missing date is Unknown. -/
theorem expiration_status_classification_witness :
    expirationStatusOf (some (-1)) 0 warningThreshold = ExpirationStatus.expired ∧
    expirationStatusOf (some 0) 0 warningThreshold = ExpirationStatus.expiringSoon ∧
    expirationStatusOf (some 3) 0 warningThreshold = ExpirationStatus.expiringSoon ∧
    expirationStatusOf (some 4) 0 warningThreshold = ExpirationStatus.fresh ∧
    expirationStatusOf none 0 warningThreshold = ExpirationStatus.unknown := by
  refine ⟨?_, ?_, ?_, ?_, ?_⟩
  · exact (((expiration_status_classification (some (-1)) 0).2.1 (-1) rfl).1).mp
      (by norm_num)
  · exact (((expiration_status_classification (some 0) 0).2.1 0 rfl).2.1).mp
      (by norm_num)
  · exact (((expiration_status_classification (some 3) 0).2.1 3 rfl).2.1).mp
      (by norm_num)
  · exact (((expiration_status_classification (some 4) 0).2.1 4 rfl).2.2).mp
      (by norm_num)
  · exact ((expiration_status_classification none 0).1).mp rfl

/-- C9: the recipe match score is `matchedCount / totalRecipeIngredients`,
always within [0, 1], an empty recipe ingredient list scores 0, and a
recipe ingredient is matched exactly when some available name is a
case-insensitive substring of it or conversely. -/
theorem recipe_match_score_spec (recipeIngredients availableIngredients : List String) :
    0 ≤ calculateMatchScore recipeIngredients availableIngredients ∧
    calculateMatchScore recipeIngredients availableIngredients ≤ 1 ∧
    (recipeIngredients = [] →
      calculateMatchScore recipeIngredients availableIngredients = 0) ∧
    (recipeIngredients ≠ [] →
      calculateMatchScore recipeIngredients availableIngredients
        = ((recipeIngredients.filter (fun r =>
              ingredientMatched (lowerStr r) (availableIngredients.map lowerStr))).length : ℚ)
          / (recipeIngredients.length : ℚ)) ∧
    (∀ ingName : String,
      ingredientMatched (lowerStr ingName) (availableIngredients.map lowerStr) = true ↔
      ∃ avail ∈ availableIngredients,
        strContainsB (lowerStr avail) (lowerStr ingName) = true ∨
        strContainsB (lowerStr ingName) (lowerStr avail) = true) := by
  refine ⟨?_, ?_, ?_, ?_, ?_⟩
  · unfold calculateMatchScore
    split_ifs with h
    · norm_num
    · positivity
  · unfold calculateMatchScore
    split_ifs with h
    · norm_num
    · have hne : recipeIngredients ≠ [] := by
        simpa [List.isEmpty_iff] using h
      have hlen : 0 < (recipeIngredients.length : ℚ) := by
        have := List.length_pos.mpr hne
        exact_mod_cast this
      rw [div_le_one hlen]
      exact_mod_cast List.length_filter_le _ _
  · intro h
    simp [calculateMatchScore, h]
  · intro h
    have : ¬ recipeIngredients.isEmpty := by
      simpa [List.isEmpty_iff] using h
    simp [calculateMatchScore, this]
  · intro ingName
    simp only [ingredientMatched, List.any_eq_true, List.mem_map, Bool.or_eq_true]
    constructor
    · rintro ⟨a, ⟨x, hx, rfl⟩, hsub⟩
      exact ⟨x, hx, hsub⟩
    · rintro ⟨x, hx, hsub⟩
      exact ⟨lowerStr x, ⟨x, hx, rfl⟩, hsub⟩

/-- C9 witness: the empty recipe scores 0, and a one-ingredient recipe
fully covered by the inventory scores 1. -/
theorem recipe_match_score_spec_witness :
    calculateMatchScore [] ["milk"] = 0 ∧
    calculateMatchScore ["Milk"] ["milk"] = 1 := by
  constructor
  · exact (recipe_match_score_spec [] ["milk"]).2.2.1 rfl
  · have h := (recipe_match_score_spec ["Milk"] ["milk"]).2.2.2.1 (by decide)
    have hm : ingredientMatched (lowerStr "Milk") [lowerStr "milk"] = true := by
      decide
    rw [h]
    simp [List.filter, List.map, hm]

/-- Merging preserves quantity non-negativity: the merged quantity is
either a sum of non-negatives or the non-negative parsed amount. -/
theorem mergeIntoExisting_quantity_nonneg (now : ℤ) (existing : InvEntry)
    (quantityAmount : ℚ) (quantityUnit : String) (estExp : ℤ) (conf : ℚ)
    (hex : 0 ≤ existing.quantity) (ha : 0 ≤ quantityAmount) :
    0 ≤ (mergeIntoExisting now existing quantityAmount quantityUnit estExp conf).quantity := by
  unfold mergeIntoExisting
  dsimp only
  split_ifs with h
  · exact add_nonneg hex ha
  · exact ha

/-- One scan-loop iteration preserves quantity non-negativity of the
collection. -/
theorem processScanItem_preserves_nonneg (now : ℤ) (newId : String)
    (inv : List InvEntry) (item : RecognizedIngredient) (fate : ItemFate)
    (h : NonNegInventory inv) :
    NonNegInventory (processScanItem now newId inv item fate).1 := by
  cases fate with
  | raised => exact h
  | persistFailed => exact h
  | ok =>
    unfold processScanItem reconcileScanItem
    cases hl : scanLookup inv item.name with
    | some existing =>
      dsimp only
      intro e he
      rw [List.mem_map] at he
      obtain ⟨x, hx, rfl⟩ := he
      by_cases hid : (x.id == existing.id) = true
      · simp only [hid, if_true]
        exact mergeIntoExisting_quantity_nonneg _ _ _ _ _ _
          (h existing (scanLookup_mem hl)) (parseQuantityValue_nonneg _)
      · simp only [Bool.not_eq_true] at hid
        simp only [hid, if_false]
        exact h x hx
    | none =>
      dsimp only
      intro e he
      rw [List.mem_append] at he
      cases he with
      | inl hin => exact h e hin
      | inr hnew =>
        rw [List.mem_singleton] at hnew
        subst hnew
        exact parseQuantityValue_nonneg _

/-- Cooking depletion preserves quantity non-negativity: the depleted
quantity is clamped by `max 0`. -/
theorem cookDepleteIngredient_preserves_nonneg (now : ℤ) (inv : List InvEntry)
    (recipeIngredientName amountStr : String) (h : NonNegInventory inv) :
    NonNegInventory (cookDepleteIngredient now inv recipeIngredientName amountStr) := by
  unfold cookDepleteIngredient
  dsimp only
  set l := if (inv.filter fun e => e.name == lowerStr recipeIngredientName).isEmpty then
      inv.filter (fun e => lowerStr e.name == lowerStr recipeIngredientName)
    else inv.filter fun e => e.name == lowerStr recipeIngredientName with hl
  cases l with
  | nil => exact h
  | cons chosen rest =>
    intro e he
    rw [List.mem_map] at he
    obtain ⟨x, hx, rfl⟩ := he
    by_cases hid : (x.id == chosen.id) = true
    · simp only [hid, if_true]
      exact le_max_left 0 _
    · simp only [Bool.not_eq_true] at hid
      simp only [hid, if_false]
      exact h x hx

/-- Any single inventory write of the scan/cooking paths preserves quantity
non-negativity. -/
theorem invWrite_preserves_nonneg {inv inv' : List InvEntry}
    (hw : InvWrite inv inv') (h : NonNegInventory inv) : NonNegInventory inv' := by
  cases hw with
  | scan now newId item fate inv =>
    exact processScanItem_preserves_nonneg now newId inv item fate h
  | cook now recipeIngredientName amountStr inv =>
    exact cookDepleteIngredient_preserves_nonneg now inv recipeIngredientName amountStr h

/-- C5: starting from any inventory whose quantities are all non-negative,
every state reachable through the scan-reconciliation and
cooking-depletion writes again has only non-negative quantities. -/
theorem inventory_quantity_nonneg_invariant (inv inv' : List InvEntry)
    (hinv : NonNegInventory inv)
    (hreach : Relation.ReflTransGen InvWrite inv inv') :
    NonNegInventory inv' := by
  induction hreach with
  | refl => exact hinv
  | tail _ hstep ih => exact invWrite_preserves_nonneg hstep ih

/-- A sample recognized scan tuple used by concrete witnesses. -/
def sampleScanned : RecognizedIngredient :=
  { name := "Avocado"
    quantity := "3 pieces"
    estimatedExpiration := "2 days"
    confidence := 9/10 }

/-- C5 witness: one scan write applied to the non-negative singleton
inventory leaves every quantity non-negative. -/
theorem inventory_quantity_nonneg_invariant_witness :
    NonNegInventory (processScanItem 0 "fresh-id" [samplePieces] sampleScanned ItemFate.ok).1 :=
  inventory_quantity_nonneg_invariant [samplePieces] _
    (by
      intro e he
      rw [List.mem_singleton] at he
      subst he
      norm_num [samplePieces])
    (Relation.ReflTransGen.single
      (InvWrite.scan 0 "fresh-id" sampleScanned ItemFate.ok [samplePieces]))

/-- Processing a batch splits over list append: the tail batch starts from
the state the head batch left, and the responses concatenate. -/
theorem scanBatch_append (now : ℤ) (inv : List InvEntry)
    (xs ys : List (RecognizedIngredient × String × ItemFate)) :
    scanIngredientsBatch now inv (xs ++ ys) =
      ((scanIngredientsBatch now (scanIngredientsBatch now inv xs).1 ys).1,
       (scanIngredientsBatch now inv xs).2
         ++ (scanIngredientsBatch now (scanIngredientsBatch now inv xs).1 ys).2) := by
  induction xs generalizing inv with
  | nil => simp [scanIngredientsBatch]
  | cons hd tl ih =>
    obtain ⟨item, newId, fate⟩ := hd
    simp only [List.cons_append, scanIngredientsBatch, List.append_eq]
    rw [ih]
    simp [List.append_assoc]

/-- C6: a failure while processing one item of a scan batch (a raised
per-item exception or a failed persistence call) leaves the store state
unchanged and contributes nothing to the response; the items before and
after it are processed exactly as if the failed item were absent, so the
response holds exactly the successfully reconciled items. -/
theorem scan_batch_partial_failure_isolation (now : ℤ) (inv : List InvEntry)
    (pre post : List (RecognizedIngredient × String × ItemFate))
    (item : RecognizedIngredient) (newId : String) (fate : ItemFate)
    (hf : fate ≠ ItemFate.ok) :
    scanIngredientsBatch now inv (pre ++ (item, newId, fate) :: post) =
      ((scanIngredientsBatch now (scanIngredientsBatch now inv pre).1 post).1,
       (scanIngredientsBatch now inv pre).2
         ++ (scanIngredientsBatch now (scanIngredientsBatch now inv pre).1 post).2) := by
  have hfail : ∀ s : List InvEntry, processScanItem now newId s item fate = (s, none) := by
    intro s
    cases fate with
    | ok => exact absurd rfl hf
    | raised => rfl
    | persistFailed => rfl
  rw [scanBatch_append]
  simp [scanIngredientsBatch, hfail]

/-- C6 witness: in a three-item batch whose middle item fails to persist,
the first and third items are still processed and the failed one is
omitted. -/
theorem scan_batch_partial_failure_isolation_witness :
    scanIngredientsBatch 0 []
        ([(sampleScanned, "id1", ItemFate.ok)]
          ++ (sampleScanned, "id2", ItemFate.persistFailed)
            :: [(sampleScanned, "id3", ItemFate.ok)]) =
      ((scanIngredientsBatch 0
          (scanIngredientsBatch 0 [] [(sampleScanned, "id1", ItemFate.ok)]).1
          [(sampleScanned, "id3", ItemFate.ok)]).1,
       (scanIngredientsBatch 0 [] [(sampleScanned, "id1", ItemFate.ok)]).2
         ++ (scanIngredientsBatch 0
              (scanIngredientsBatch 0 [] [(sampleScanned, "id1", ItemFate.ok)]).1
              [(sampleScanned, "id3", ItemFate.ok)]).2) :=
  scan_batch_partial_failure_isolation 0 [] [(sampleScanned, "id1", ItemFate.ok)]
    [(sampleScanned, "id3", ItemFate.ok)] sampleScanned "id2" ItemFate.persistFailed
    (by decide)

end AmazonBackend
